import Mathlib

/-
Verification of the extension recommendation engine in
src/vs/workbench/parts/extensions/electron-browser/extensionTipsService.ts.

The TypeScript service is shallowly embedded as pure Lean functions:
  - JavaScript objects used as string-keyed maps become association lists
    that keep insertion order (the order Object.keys would return).
  - The deferred unit scheduled by setImmediate inside the private method
    suggest is modelled by the function suggest, which computes the
    completed effect of one unit: the updated recommendation set, the
    value written to storage, and the list of important-recommendation
    notifications emitted (identified by extension id).
  - The external glob matcher (vs/base/common/glob match) is an abstract
    parameter globMatch of type String to String to Bool.
  - The WinJS promise returned by getInstalled is modelled as an Except
    value; done with only a success callback runs the callback on ok and
    skips it on error (the rejection escapes to the host).
  - JSON.parse and JSON.stringify, applied by the code only to arrays of
    strings, are modelled by an executable codec for that fragment; a
    parse failure is a thrown exception, so hydration returns Except.
-/

/-- Structure of a locally installed extension, reduced to the two manifest
fields the service reads: publisher and name. -/
structure LocalExtension where
  publisher : String
  name : String
deriving DecidableEq, Repr

/-- Identifier key derived from a local extension, as the template string
publisher dot name in the source. -/
def LocalExtension.key (e : LocalExtension) : String :=
  e.publisher ++ "." ++ e.name

/-- Whitespace skipping for the JSON codec. -/
def skipWs : List Char → List Char
  | [] => []
  | c :: cs => if c = ' ' ∨ c = '\t' ∨ c = '\n' ∨ c = '\r' then skipWs cs else c :: cs

/-- Decoding of a single JSON escape character after a backslash. -/
def escapeDecode (c : Char) : Option Char :=
  if c = '"' then some '"'
  else if c = '\\' then some '\\'
  else if c = '/' then some '/'
  else if c = 'n' then some '\n'
  else if c = 't' then some '\t'
  else if c = 'r' then some '\r'
  else none

/-- Body of a JSON string after the opening quote: returns the decoded
characters and the remaining input after the closing quote. -/
def parseStringBody : List Char → Option (List Char × List Char)
  | [] => none
  | '"' :: cs => some ([], cs)
  | '\\' :: [] => none
  | '\\' :: e :: cs2 =>
    match escapeDecode e with
    | none => none
    | some d =>
      match parseStringBody cs2 with
      | none => none
      | some (s, r) => some (d :: s, r)
  | c :: cs =>
    match parseStringBody cs with
    | none => none
    | some (s, r) => some (c :: s, r)

/-- Comma-separated elements of a JSON string array, fuel-indexed; expects
each element to start with a quote and ends at the closing bracket. -/
def parseElemsAux : Nat → List Char → Option (List String × List Char)
  | 0, _ => none
  | fuel + 1, cs =>
    match skipWs cs with
    | '"' :: rest =>
      match parseStringBody rest with
      | none => none
      | some (s, r) =>
        match skipWs r with
        | ']' :: r2 => some ([String.mk s], r2)
        | ',' :: r2 =>
          match parseElemsAux fuel r2 with
          | none => none
          | some (ss, r3) => some (String.mk s :: ss, r3)
        | _ => none
    | _ => none

/-- Model of JSON.parse restricted to the values this service ever stores:
JSON arrays of strings. Returns none where JSON.parse would throw a
SyntaxError (the code does not catch it). -/
def jsonParseStringArray (s : String) : Option (List String) :=
  match skipWs s.data with
  | '[' :: rest =>
    match skipWs rest with
    | ']' :: r2 => if (skipWs r2).isEmpty then some [] else none
    | rest2 =>
      match parseElemsAux (rest2.length + 1) rest2 with
      | none => none
      | some (ss, r) => if (skipWs r).isEmpty then some ss else none
  | _ => none

/-- Escaping of one character for the JSON string encoder. -/
def jsonEscapeChar (c : Char) : List Char :=
  if c = '"' then ['\\', '"']
  else if c = '\\' then ['\\', '\\']
  else [c]

/-- Encoding of one string as a quoted JSON string. -/
def jsonEncodeString (s : String) : List Char :=
  '"' :: s.data.foldr (fun c acc => jsonEscapeChar c ++ acc) ['"']

/-- Joining of encoded elements with commas. -/
def commaJoin : List (List Char) → List Char
  | [] => []
  | [x] => x
  | x :: xs => x ++ ',' :: commaJoin xs

/-- Model of JSON.stringify applied to an array of strings, the only shape
the service serializes. -/
def jsonStringifyStringArray (l : List String) : String :=
  String.mk ('[' :: commaJoin (l.map jsonEncodeString) ++ [']'])

/-- Insertion into the recommendation set. The source stores the set as a
JavaScript object indexed by id; assigning an existing key changes nothing,
assigning a fresh key appends it to the key order. -/
def recInsert (recs : List String) (id : String) : List String :=
  if id ∈ recs then recs else recs ++ [id]

/-- Keys of a JavaScript object modelled as an association list: first
occurrence order, duplicates dropped. -/
def objKeys (l : List (String × String)) : List String :=
  l.foldl (fun ks kv => if kv.1 ∈ ks then ks else ks ++ [kv.1]) []

/-- Lookup of the first binding of a key in an association list, the value
a JavaScript object indexing returns. -/
def lookupFirst (l : List (String × String)) (k : String) : Option String :=
  match l with
  | [] => none
  | kv :: rest => if kv.1 = k then some kv.2 else lookupFirst rest k

/-- Grouping of the tip map (entries id to pattern, in object iteration
order) into the pattern index, as the forEach loop in suggestTips builds
availableRecommendations: first id for a pattern creates the entry, later
ids are pushed onto it. -/
def buildAvailableRecommendations (tips : List (String × String)) :
    List (String × List String) :=
  tips.foldl
    (fun acc entry =>
      if acc.any (fun e => e.1 = entry.2) then
        acc.map (fun e => if e.1 = entry.2 then (e.1, e.2 ++ [entry.1]) else e)
      else acc ++ [(entry.2, [entry.1])])
    []

/-- State of the active tips pipeline: the fields the service mutates.
Field names follow the source without the leading underscore. -/
structure TipsState where
  recommendations : List String
  availableRecommendations : List (String × List String)
  importantRecommendations : List (String × String)
  importantRecommendationsIgnoreList : List String
deriving DecidableEq, Repr

/-- Matching pass of one deferred unit: for every pattern index entry whose
pattern matches the document path, every grouped id is inserted into the
recommendation set. -/
def applyMatches (globMatch : String → String → Bool) (fsPath : String)
    (index : List (String × List String)) (recs : List String) : List String :=
  index.foldl
    (fun acc entry =>
      if globMatch entry.1 fsPath then entry.2.foldl recInsert acc else acc)
    recs

/-- Result of one completed deferred unit of the suggest method. -/
structure SuggestResult where
  state : TipsState
  storedRecommendations : List String
  notifications : List String
deriving DecidableEq, Repr

/-- Completed effect of the deferred unit that suggest schedules for one
observed document: match all patterns into the recommendation set, persist
the full set, then (once the installed query resolves) evaluate the
important-recommendation gate. A rejected installed query skips the done
callback, so no notification is evaluated. -/
def suggest (globMatch : String → String → Bool) (st : TipsState)
    (installed : Except Unit (List LocalExtension)) (fsPath : String) :
    SuggestResult :=
  let recs := applyMatches globMatch fsPath st.availableRecommendations st.recommendations
  let notifications :=
    match installed with
    | .error _ => []
    | .ok localExts =>
      (((objKeys st.importantRecommendations).filter
          (fun id => decide (id ∉ st.importantRecommendationsIgnoreList))).filter
        (fun id => localExts.all (fun l => decide (l.key ≠ id)))).filter
        (fun id =>
          match lookupFirst st.importantRecommendations id with
          | some pattern => globMatch pattern fsPath
          | none => false)
  { state := { st with recommendations := recs },
    storedRecommendations := recs,
    notifications := notifications }

/-- User action on an important-recommendation notification that appends the
id to the ignore list and persists the serialized list; returns the new
state and the string written to storage. -/
def neverAgainImportant (st : TipsState) (id : String) : TipsState × String :=
  let st2 := { st with
    importantRecommendationsIgnoreList := st.importantRecommendationsIgnoreList ++ [id] }
  (st2, jsonStringifyStringArray st2.importantRecommendationsIgnoreList)

/-- Sequence of observed documents, each processed by its own deferred unit
over the evolving state. -/
def observeAll (globMatch : String → String → Bool)
    (events : List (String × Except Unit (List LocalExtension)))
    (st : TipsState) : TipsState :=
  events.foldl (fun s ev => (suggest globMatch s ev.2 ev.1).state) st

/-- Hydration performed by suggestTips. An absent tip map returns before any
storage access: the pipeline stays inactive (ok none) and no subscription is
registered. Otherwise both persisted lists are parsed with JSON.parse; a
parse failure is an uncaught SyntaxError, modelled as Except.error, aborting
construction. -/
def suggestTips (extensionTips : Option (List (String × String)))
    (extensionImportantTips : Option (List (String × String)))
    (ignoreStr recsStr : String) : Except String (Option TipsState) :=
  match extensionTips with
  | none => .ok none
  | some tips =>
    match jsonParseStringArray ignoreStr with
    | none => .error "SyntaxError"
    | some ignore =>
      match jsonParseStringArray recsStr with
      | none => .error "SyntaxError"
      | some stored =>
        .ok (some {
          recommendations := stored.foldl recInsert [],
          availableRecommendations := buildAvailableRecommendations tips,
          importantRecommendations := extensionImportantTips.getD [],
          importantRecommendationsIgnoreList := ignore })

/-- Accessor getRecommendations on the active pipeline: Object.keys of the
recommendation set, which is the insertion-ordered id list. -/
def getRecommendations (st : TipsState) : List String :=
  st.recommendations

/-- Persisted per-workspace storage read by the workspace gate. -/
structure WorkspaceStore where
  dismissed : Bool
deriving DecidableEq, Repr

/-- Accessor getWorkspaceRecommendations: the configured list or empty. -/
def getWorkspaceRecommendations (configured : Option (List String)) : List String :=
  configured.getD []

/-- One run of suggestWorkspaceRecommendations: short-circuit on the
persisted dismissal flag, then on an empty configured list; on a resolved
installed query filter out installed ids and notify the non-empty rest as
one batch (some batch = one notification, none = no notification). A
rejected query skips the done callback, hence no notification. -/
def suggestWorkspaceRecommendations (dismissed : Bool)
    (allRecommendations : List String)
    (installed : Except Unit (List LocalExtension)) : Option (List String) :=
  if dismissed then none
  else if allRecommendations.isEmpty then none
  else
    match installed with
    | .error _ => none
    | .ok localExts =>
      if (allRecommendations.filter
          (fun id => localExts.all (fun l => decide (l.key ≠ id)))).isEmpty then none
      else some (allRecommendations.filter
          (fun id => localExts.all (fun l => decide (l.key ≠ id))))

/-- Invocation of the workspace check against the store: the check itself
never writes the store; only the user action does. -/
def runWorkspaceCheck (store : WorkspaceStore) (allRecommendations : List String)
    (installed : Except Unit (List LocalExtension)) :
    Option (List String) × WorkspaceStore :=
  (suggestWorkspaceRecommendations store.dismissed allRecommendations installed, store)

/-- User action on the workspace notification: persists the dismissal flag
as true in workspace scope. -/
def neverAgainWorkspace (_store : WorkspaceStore) : WorkspaceStore :=
  { dismissed := true }

/-- Snapshot of the service after construction. subscribed records whether
the onModelAdded listener was registered; workspaceRan whether the
workspace one-shot check executed. -/
structure ExtensionTipsService where
  tipsState : Option TipsState
  subscribed : Bool
  workspaceNotification : Option (List String)
  workspaceRan : Bool
deriving DecidableEq, Repr

/-- Constructor: if the gallery service is disabled it returns before doing
anything; otherwise it runs suggestTips (whose thrown SyntaxError aborts
construction before the workspace check) and then the workspace check. -/
def constructService (galleryEnabled : Bool)
    (extensionTips extensionImportantTips : Option (List (String × String)))
    (ignoreStr recsStr : String)
    (wsDismissed : Bool) (wsRecommendations : List String)
    (installed : Except Unit (List LocalExtension)) :
    Except String ExtensionTipsService :=
  if galleryEnabled = false then
    .ok { tipsState := none, subscribed := false,
          workspaceNotification := none, workspaceRan := false }
  else
    match suggestTips extensionTips extensionImportantTips ignoreStr recsStr with
    | .error e => .error e
    | .ok t =>
      .ok { tipsState := t, subscribed := t.isSome,
            workspaceNotification :=
              suggestWorkspaceRecommendations wsDismissed wsRecommendations installed,
            workspaceRan := true }

/-- Service-level getRecommendations: the recommendation object starts empty
at field initialization, so an inactive pipeline yields the empty list. -/
def serviceGetRecommendations (s : ExtensionTipsService) : List String :=
  match s.tipsState with
  | none => []
  | some st => st.recommendations

/-- Membership is preserved by recInsert. -/
theorem mem_recInsert_of_mem {recs : List String} {y x : String} (h : y ∈ recs) :
    y ∈ recInsert recs x := by
  unfold recInsert
  split
  · exact h
  · exact List.mem_append_left _ h

/-- The inserted element is a member after recInsert. -/
theorem self_mem_recInsert (recs : List String) (x : String) : x ∈ recInsert recs x := by
  unfold recInsert
  split
  · assumption
  · exact List.mem_append_right _ (List.mem_singleton.mpr rfl)

/-- Inserting an element already present is the identity. -/
theorem recInsert_eq_of_mem {recs : List String} {x : String} (h : x ∈ recs) :
    recInsert recs x = recs := by
  unfold recInsert
  simp [h]

/-- Membership is preserved by a fold of recInsert. -/
theorem mem_foldl_recInsert_of_mem {ids : List String} {recs : List String} {y : String}
    (h : y ∈ recs) : y ∈ ids.foldl recInsert recs := by
  induction ids generalizing recs with
  | nil => exact h
  | cons x rest ih => exact ih (mem_recInsert_of_mem h)

/-- Every folded-in element is a member after the fold. -/
theorem mem_foldl_recInsert_of_mem_ids {ids : List String} {recs : List String} {y : String}
    (h : y ∈ ids) : y ∈ ids.foldl recInsert recs := by
  induction ids generalizing recs with
  | nil => cases h
  | cons x rest ih =>
    rcases List.mem_cons.mp h with h | h
    · subst h
      rw [List.foldl_cons]
      exact mem_foldl_recInsert_of_mem (self_mem_recInsert recs y)
    · exact ih h

/-- Folding in elements already present is the identity. -/
theorem foldl_recInsert_eq_of_subset {ids : List String} {recs : List String}
    (h : ∀ x ∈ ids, x ∈ recs) : ids.foldl recInsert recs = recs := by
  induction ids with
  | nil => rfl
  | cons x rest ih =>
    have hx : recInsert recs x = recs := recInsert_eq_of_mem (h x (List.mem_cons_self x rest))
    simp only [List.foldl_cons, hx]
    exact ih (fun y hy => h y (List.mem_cons_of_mem x hy))

/-- Unfolding of applyMatches over a cons cell. -/
theorem applyMatches_cons (globMatch : String → String → Bool) (fsPath : String)
    (e : String × List String) (index : List (String × List String)) (recs : List String) :
    applyMatches globMatch fsPath (e :: index) recs =
      applyMatches globMatch fsPath index
        (if globMatch e.1 fsPath then e.2.foldl recInsert recs else recs) := rfl

/-- Membership is preserved by the matching pass. -/
theorem mem_applyMatches_of_mem {globMatch : String → String → Bool} {fsPath : String}
    {index : List (String × List String)} {recs : List String} {y : String}
    (h : y ∈ recs) : y ∈ applyMatches globMatch fsPath index recs := by
  induction index generalizing recs with
  | nil => exact h
  | cons e rest ih =>
    rw [applyMatches_cons]
    apply ih
    split
    · exact mem_foldl_recInsert_of_mem h
    · exact h

/-- Every id grouped under a matching pattern is present after the pass. -/
theorem mem_applyMatches_of_entry {globMatch : String → String → Bool} {fsPath : String}
    {index : List (String × List String)} {recs : List String} {e : String × List String}
    {y : String} (hmem : e ∈ index) (hgm : globMatch e.1 fsPath = true) (hy : y ∈ e.2) :
    y ∈ applyMatches globMatch fsPath index recs := by
  induction index generalizing recs with
  | nil => cases hmem
  | cons f rest ih =>
    rw [applyMatches_cons]
    rcases List.mem_cons.mp hmem with h | h
    · subst h
      rw [if_pos hgm]
      exact mem_applyMatches_of_mem (mem_foldl_recInsert_of_mem_ids hy)
    · exact ih h

/-- The matching pass is the identity when all ids of all matching entries
are already present. -/
theorem applyMatches_eq_of_covered {globMatch : String → String → Bool} {fsPath : String}
    {index : List (String × List String)} {recs : List String}
    (h : ∀ e ∈ index, globMatch e.1 fsPath = true → ∀ x ∈ e.2, x ∈ recs) :
    applyMatches globMatch fsPath index recs = recs := by
  induction index with
  | nil => rfl
  | cons e rest ih =>
    rw [applyMatches_cons]
    by_cases hm : globMatch e.1 fsPath = true
    · rw [if_pos hm, foldl_recInsert_eq_of_subset (h e (List.mem_cons_self e rest) hm)]
      exact ih (fun f hf => h f (List.mem_cons_of_mem e hf))
    · rw [if_neg hm]
      exact ih (fun f hf => h f (List.mem_cons_of_mem e hf))

/-- The matching pass is idempotent on the recommendation set. -/
theorem applyMatches_idem (globMatch : String → String → Bool) (fsPath : String)
    (index : List (String × List String)) (recs : List String) :
    applyMatches globMatch fsPath index (applyMatches globMatch fsPath index recs) =
      applyMatches globMatch fsPath index recs :=
  applyMatches_eq_of_covered
    (fun _ he hm _ hx => mem_applyMatches_of_entry he hm hx)

/-- An id on the ignore list never appears among a unit's notifications. -/
theorem suggest_notifications_ignored {globMatch : String → String → Bool} {st : TipsState}
    {installed : Except Unit (List LocalExtension)} {fsPath id : String}
    (h : id ∈ st.importantRecommendationsIgnoreList) :
    id ∉ (suggest globMatch st installed fsPath).notifications := by
  cases installed with
  | error e => simp [suggest]
  | ok localExts =>
    intro hmem
    simp only [suggest, List.mem_filter, decide_eq_true_eq] at hmem
    exact hmem.1.1.2 h

/-- An id matching an installed extension key never appears among a unit's
notifications. -/
theorem suggest_notifications_installed {globMatch : String → String → Bool} {st : TipsState}
    {localExts : List LocalExtension} {fsPath id : String}
    (e : LocalExtension) (he : e ∈ localExts) (hk : e.key = id) :
    id ∉ (suggest globMatch st (.ok localExts) fsPath).notifications := by
  intro hmem
  simp only [suggest, List.mem_filter, List.all_eq_true, decide_eq_true_eq] at hmem
  exact hmem.1.2 e he hk

/-- An id matching an installed extension key never appears in the workspace
notification batch. -/
theorem workspace_notifications_installed {dismissed : Bool} {allRecs : List String}
    {localExts : List LocalExtension} {id : String}
    (e : LocalExtension) (he : e ∈ localExts) (hk : e.key = id) :
    id ∉ (suggestWorkspaceRecommendations dismissed allRecs (.ok localExts)).getD [] := by
  intro hmem
  unfold suggestWorkspaceRecommendations at hmem
  split at hmem
  · cases hmem
  · split at hmem
    · cases hmem
    · split at hmem
      · cases hmem
      · rename_i l2 heq
        injection heq with heq2
        subst heq2
        split at hmem
        · cases hmem
        · have h2 : (localExts.all fun l => decide (l.key ≠ id)) = true :=
            (List.mem_filter.mp hmem).2
          have h3 := List.all_eq_true.mp h2 e he
          simp only [decide_eq_true_eq] at h3
          exact h3 hk

/-- Membership is preserved across any sequence of deferred units. -/
theorem mem_observeAll_of_mem {globMatch : String → String → Bool}
    {events : List (String × Except Unit (List LocalExtension))}
    {st : TipsState} {id : String} (h : id ∈ st.recommendations) :
    id ∈ (observeAll globMatch events st).recommendations := by
  induction events generalizing st with
  | nil => exact h
  | cons ev rest ih =>
    exact ih (mem_applyMatches_of_mem h)

/-- Claim C1: for every observed document path, and for every entry of the
pattern index built from the tip map, if the glob matcher reports that the
entry's pattern matches the path, then after the document's deferred unit
completes every id grouped under the entry is a member of the list returned
by getRecommendations. -/
theorem C1_match_implies_recommended
    (globMatch : String → String → Bool) (tips : List (String × String))
    (st : TipsState) (installed : Except Unit (List LocalExtension))
    (fsPath : String) (entry : String × List String) (id : String)
    (_hidx : st.availableRecommendations = buildAvailableRecommendations tips)
    (hentry : entry ∈ st.availableRecommendations)
    (hid : id ∈ entry.2)
    (hmatch : globMatch entry.1 fsPath = true) :
    id ∈ getRecommendations (suggest globMatch st installed fsPath).state :=
  mem_applyMatches_of_entry hentry hmatch hid

/-- Witness for C1 at the spec's scenario A: tip map sending foo.bar to the
markdown pattern, document README.md, empty initial state. -/
theorem C1_witness :
    "foo.bar" ∈ getRecommendations (suggest
      (fun p s => decide (p = "**/*.md") && decide (s = "README.md"))
      { recommendations := [],
        availableRecommendations := buildAvailableRecommendations [("foo.bar", "**/*.md")],
        importantRecommendations := [],
        importantRecommendationsIgnoreList := [] }
      (Except.ok []) "README.md").state :=
  C1_match_implies_recommended
    (fun p s => decide (p = "**/*.md") && decide (s = "README.md"))
    [("foo.bar", "**/*.md")]
    { recommendations := [],
      availableRecommendations := buildAvailableRecommendations [("foo.bar", "**/*.md")],
      importantRecommendations := [],
      importantRecommendationsIgnoreList := [] }
    (Except.ok []) "README.md" ("**/*.md", ["foo.bar"]) "foo.bar"
    rfl (by decide) (by decide) (by decide)

/-- Counterexample to claim C2 as stated: with a present tip map,
unparseable JSON under either persisted list key makes hydration throw a
SyntaxError out of JSON.parse instead of starting with the collection
empty. -/
theorem C2_counterexample :
    suggestTips (some [("a.b", "p")]) none "oops" "[]" = Except.error "SyntaxError" ∧
    suggestTips (some [("a.b", "p")]) none "[]" "oops" = Except.error "SyntaxError" :=
  ⟨rfl, rfl⟩

/-- Claim C2 amended: unparseable JSON under the recommendations key or the
important-recommendations-ignore key is fatal to hydration: JSON.parse
throws and construction aborts; the collections are not defaulted to
empty. -/
theorem C2_amended_parse_failure_fatal
    (tips : List (String × String)) (imp : Option (List (String × String)))
    (ignoreStr recsStr : String)
    (h : jsonParseStringArray ignoreStr = none ∨ jsonParseStringArray recsStr = none) :
    suggestTips (some tips) imp ignoreStr recsStr = Except.error "SyntaxError" := by
  unfold suggestTips
  rcases h with h | h
  · rw [h]
  · cases hp : jsonParseStringArray ignoreStr with
    | none => rfl
    | some ignore => rw [h]

/-- Witness for the amended C2 at the concrete stored value oops under the
recommendations key. -/
theorem C2_witness :
    suggestTips (some [("a.b", "p")]) none "[]" "oops" = Except.error "SyntaxError" :=
  C2_amended_parse_failure_fatal [("a.b", "p")] none "[]" "oops" (Or.inr rfl)

/-- Counterexample to claim C3 as stated: with an important tip whose
pattern matches the observed document and nothing ignored or installed, a
rejected installed-extensions query yields no notification while a resolved
one yields one, and likewise for the workspace gate: rejection suppresses
rather than over-notifies. -/
theorem C3_counterexample :
    (suggest (fun _ _ => true)
      { recommendations := [], availableRecommendations := [],
        importantRecommendations := [("x.y", "q")],
        importantRecommendationsIgnoreList := [] }
      (Except.error ()) "a.q").notifications = [] ∧
    (suggest (fun _ _ => true)
      { recommendations := [], availableRecommendations := [],
        importantRecommendations := [("x.y", "q")],
        importantRecommendationsIgnoreList := [] }
      (Except.ok []) "a.q").notifications = ["x.y"] ∧
    suggestWorkspaceRecommendations false ["x.y"] (Except.error ()) = none ∧
    suggestWorkspaceRecommendations false ["x.y"] (Except.ok []) = some ["x.y"] :=
  ⟨rfl, rfl, rfl, rfl⟩

/-- Claim C3 amended: a rejected installed-extensions query skips the done
success callback, so that round emits no important notification and no
workspace notification; the accumulator matching and its persisted snapshot
still happen, as they precede the query. -/
theorem C3_amended_rejection_skips_callback
    (globMatch : String → String → Bool) (st : TipsState) (fsPath : String)
    (e e2 : Unit) (dismissed : Bool) (allRecs : List String) :
    (suggest globMatch st (Except.error e) fsPath).notifications = [] ∧
    (suggest globMatch st (Except.error e) fsPath).storedRecommendations =
      applyMatches globMatch fsPath st.availableRecommendations st.recommendations ∧
    suggestWorkspaceRecommendations dismissed allRecs (Except.error e2) = none := by
  refine ⟨rfl, rfl, ?_⟩
  unfold suggestWorkspaceRecommendations
  split
  · rfl
  · split
    · rfl
    · rfl

/-- Claim C4: once an id is appended to the important-recommendations ignore
list by the never-show-again action, no later deferred unit emits an
important notification for it, whatever pattern matches; and an engine
re-hydrated from the persisted ignore string (whose JSON round-trips) also
never emits it. -/
theorem C4_ignore_list_suppresses
    (st : TipsState) (id : String)
    (gm gm2 : String → String → Bool)
    (inst inst2 : Except Unit (List LocalExtension))
    (path path2 recsStr : String)
    (tips : List (String × String)) (imp : Option (List (String × String)))
    (st2 : TipsState)
    (hround : jsonParseStringArray (neverAgainImportant st id).2 =
      some (neverAgainImportant st id).1.importantRecommendationsIgnoreList)
    (hre : suggestTips (some tips) imp (neverAgainImportant st id).2 recsStr =
      Except.ok (some st2)) :
    id ∉ (suggest gm (neverAgainImportant st id).1 inst path).notifications ∧
    id ∉ (suggest gm2 st2 inst2 path2).notifications := by
  have hmemid : id ∈ (neverAgainImportant st id).1.importantRecommendationsIgnoreList :=
    List.mem_append_right _ (List.mem_singleton.mpr rfl)
  constructor
  · exact suggest_notifications_ignored hmemid
  · apply suggest_notifications_ignored
    unfold suggestTips at hre
    rw [hround] at hre
    cases hrec : jsonParseStringArray recsStr with
    | none => rw [hrec] at hre; cases hre
    | some stored =>
      rw [hrec] at hre
      simp only [Except.ok.injEq, Option.some.injEq] at hre
      rw [← hre]
      exact hmemid

/-- Witness for C4: the id foo.bar dismissed from an empty ignore list, then
a restart hydrating from the persisted string. -/
theorem C4_witness :
    "foo.bar" ∉ (suggest (fun _ _ => true)
      (neverAgainImportant
        { recommendations := [], availableRecommendations := [],
          importantRecommendations := [("foo.bar", "p")],
          importantRecommendationsIgnoreList := [] } "foo.bar").1
      (Except.ok []) "a.ts").notifications ∧
    "foo.bar" ∉ (suggest (fun _ _ => true)
      { recommendations := [], availableRecommendations := [("pp", ["a.b"])],
        importantRecommendations := [("foo.bar", "p")],
        importantRecommendationsIgnoreList := ["foo.bar"] }
      (Except.ok []) "b.ts").notifications :=
  C4_ignore_list_suppresses
    { recommendations := [], availableRecommendations := [],
      importantRecommendations := [("foo.bar", "p")],
      importantRecommendationsIgnoreList := [] }
    "foo.bar" (fun _ _ => true) (fun _ _ => true)
    (Except.ok []) (Except.ok []) "a.ts" "b.ts" "[]"
    [("a.b", "pp")] (some [("foo.bar", "p")])
    { recommendations := [], availableRecommendations := [("pp", ["a.b"])],
      importantRecommendations := [("foo.bar", "p")],
      importantRecommendationsIgnoreList := ["foo.bar"] }
    rfl rfl

/-- Counterexample to claim C5 as stated: with the persisted dismissal flag
false, a configured recommendation and no installed extensions, each of two
consecutive invocations of the workspace check emits a notification, because
the check itself never writes the flag. -/
theorem C5_counterexample :
    (runWorkspaceCheck { dismissed := false } ["a.b"] (Except.ok [])).1 = some ["a.b"] ∧
    (runWorkspaceCheck
      (runWorkspaceCheck { dismissed := false } ["a.b"] (Except.ok [])).2
      ["a.b"] (Except.ok [])).1 = some ["a.b"] :=
  ⟨rfl, rfl⟩

/-- Claim C5 amended: an invocation of the workspace check emits nothing
when the persisted dismissal flag is true, and the flag is set only by the
never-show-again action; after that action every invocation, including by a
fresh engine reading the same store, emits zero notifications, but two
invocations without the action in between may emit one notification each. -/
theorem C5_amended_dismissal_flag_gates
    (store : WorkspaceStore) (allRecs allRecs2 : List String)
    (inst inst2 : Except Unit (List LocalExtension)) :
    (runWorkspaceCheck (neverAgainWorkspace store) allRecs inst).1 = none ∧
    (store.dismissed = true → (runWorkspaceCheck store allRecs2 inst2).1 = none) := by
  constructor
  · rfl
  · intro h
    simp [runWorkspaceCheck, suggestWorkspaceRecommendations, h]

/-- Witness for the amended C5 at a store whose flag is already true. -/
theorem C5_witness :
    (runWorkspaceCheck { dismissed := true } ["a.b"] (Except.ok [])).1 = none :=
  (C5_amended_dismissal_flag_gates { dismissed := true } [] ["a.b"]
    (Except.ok []) (Except.ok [])).2 rfl

/-- Claim C6: an id equal to publisher dot name of some installed extension
is never emitted as an important-recommendation notification and never
contained in the workspace notification batch, whatever pattern matches or
workspace configuration applies. -/
theorem C6_installed_never_notified
    (globMatch : String → String → Bool) (st : TipsState) (fsPath : String)
    (localExts : List LocalExtension) (X : String)
    (dismissed : Bool) (wsRecs : List String)
    (e : LocalExtension) (he : e ∈ localExts) (hk : e.key = X) :
    X ∉ (suggest globMatch st (Except.ok localExts) fsPath).notifications ∧
    X ∉ (suggestWorkspaceRecommendations dismissed wsRecs (Except.ok localExts)).getD [] :=
  ⟨suggest_notifications_installed e he hk, workspace_notifications_installed e he hk⟩

/-- Witness for C6 at the spec's scenario C: pub.ext1 installed, matching
important tip and workspace configuration mentioning it. -/
theorem C6_witness :
    "pub.ext1" ∉ (suggest (fun _ _ => true)
      { recommendations := [], availableRecommendations := [],
        importantRecommendations := [("pub.ext1", "q")],
        importantRecommendationsIgnoreList := [] }
      (Except.ok [{ publisher := "pub", name := "ext1" }]) "a.q").notifications ∧
    "pub.ext1" ∉ (suggestWorkspaceRecommendations false ["pub.ext1", "pub.ext2"]
      (Except.ok [{ publisher := "pub", name := "ext1" }])).getD [] :=
  C6_installed_never_notified (fun _ _ => true)
    { recommendations := [], availableRecommendations := [],
      importantRecommendations := [("pub.ext1", "q")],
      importantRecommendationsIgnoreList := [] }
    "a.q" [{ publisher := "pub", name := "ext1" }] "pub.ext1"
    false ["pub.ext1", "pub.ext2"]
    { publisher := "pub", name := "ext1" } (by decide) (by decide)

/-- Counterexample to claim C7 as stated: with an empty-but-present tip map
the engine is not a no-op: construction builds an empty index and registers
the document subscription, and a configured important tip still produces a
notification for an observed document. -/
theorem C7_counterexample :
    constructService true (some []) (some [("x.y", "q")]) "[]" "[]" false [] (Except.ok []) =
      Except.ok
        { tipsState := some
            { recommendations := [], availableRecommendations := [],
              importantRecommendations := [("x.y", "q")],
              importantRecommendationsIgnoreList := [] },
          subscribed := true,
          workspaceNotification := none, workspaceRan := true } ∧
    (suggest (fun _ _ => true)
      { recommendations := [], availableRecommendations := [],
        importantRecommendations := [("x.y", "q")],
        importantRecommendationsIgnoreList := [] }
      (Except.ok []) "doc.md").notifications = ["x.y"] :=
  ⟨rfl, rfl⟩

/-- Claim C7 amended: an absent tip map disables only the tips pipeline:
storage is not read, no index is built and no document subscription is
registered, so no important notifications can arise; the workspace check
still runs independently and may emit its notification; an empty-but-present
tip map does not disable the pipeline at all. -/
theorem C7_amended_absent_tips_only_disable_pipeline
    (imp : Option (List (String × String))) (ignoreStr recsStr : String)
    (wd : Bool) (wr : List String) (inst : Except Unit (List LocalExtension)) :
    suggestTips none imp ignoreStr recsStr = Except.ok none ∧
    constructService true none imp ignoreStr recsStr wd wr inst =
      Except.ok { tipsState := none, subscribed := false,
                  workspaceNotification := suggestWorkspaceRecommendations wd wr inst,
                  workspaceRan := true } :=
  ⟨rfl, rfl⟩

/-- Claim C8: observing the same document path twice yields the same
getRecommendations result as observing it once: the second matching pass
re-inserts only ids that are already present. -/
theorem C8_observe_idempotent
    (globMatch : String → String → Bool) (st : TipsState)
    (inst1 inst2 : Except Unit (List LocalExtension)) (fsPath : String) :
    getRecommendations (suggest globMatch
        (suggest globMatch st inst1 fsPath).state inst2 fsPath).state =
      getRecommendations (suggest globMatch st inst1 fsPath).state := by
  show applyMatches globMatch fsPath st.availableRecommendations
      (applyMatches globMatch fsPath st.availableRecommendations st.recommendations) =
    applyMatches globMatch fsPath st.availableRecommendations st.recommendations
  exact applyMatches_idem globMatch fsPath st.availableRecommendations st.recommendations

/-- Claim C9: the recommendation set only grows: every id present in the
hydrated state survives any sequence of deferred units, and the snapshot a
further unit persists is exactly its post-match set and still contains the
id, so each persisted snapshot is a superset of what was loaded. -/
theorem C9_recommendations_monotone
    (globMatch : String → String → Bool)
    (events : List (String × Except Unit (List LocalExtension)))
    (st0 : TipsState) (inst : Except Unit (List LocalExtension))
    (fsPath id : String) (h : id ∈ st0.recommendations) :
    id ∈ (observeAll globMatch events st0).recommendations ∧
    (suggest globMatch (observeAll globMatch events st0) inst fsPath).storedRecommendations =
      (suggest globMatch (observeAll globMatch events st0) inst fsPath).state.recommendations ∧
    id ∈ (suggest globMatch (observeAll globMatch events st0) inst fsPath).storedRecommendations := by
  refine ⟨mem_observeAll_of_mem h, rfl, ?_⟩
  exact mem_applyMatches_of_mem (mem_observeAll_of_mem h)

/-- Witness for C9: an id loaded at startup survives two further observed
documents, one of them with a rejected installed query, and appears in the
next persisted snapshot. -/
theorem C9_witness :
    "a.b" ∈ (observeAll (fun _ _ => true)
      [("d1", Except.ok []), ("d2", Except.error ())]
      { recommendations := ["a.b"], availableRecommendations := [("p", ["c.d"])],
        importantRecommendations := [], importantRecommendationsIgnoreList := [] }).recommendations ∧
    (suggest (fun _ _ => true) (observeAll (fun _ _ => true)
      [("d1", Except.ok []), ("d2", Except.error ())]
      { recommendations := ["a.b"], availableRecommendations := [("p", ["c.d"])],
        importantRecommendations := [], importantRecommendationsIgnoreList := [] })
      (Except.ok []) "d3").storedRecommendations =
    (suggest (fun _ _ => true) (observeAll (fun _ _ => true)
      [("d1", Except.ok []), ("d2", Except.error ())]
      { recommendations := ["a.b"], availableRecommendations := [("p", ["c.d"])],
        importantRecommendations := [], importantRecommendationsIgnoreList := [] })
      (Except.ok []) "d3").state.recommendations ∧
    "a.b" ∈ (suggest (fun _ _ => true) (observeAll (fun _ _ => true)
      [("d1", Except.ok []), ("d2", Except.error ())]
      { recommendations := ["a.b"], availableRecommendations := [("p", ["c.d"])],
        importantRecommendations := [], importantRecommendationsIgnoreList := [] })
      (Except.ok []) "d3").storedRecommendations :=
  C9_recommendations_monotone (fun _ _ => true)
    [("d1", Except.ok []), ("d2", Except.error ())]
    { recommendations := ["a.b"], availableRecommendations := [("p", ["c.d"])],
      importantRecommendations := [], importantRecommendationsIgnoreList := [] }
    (Except.ok []) "d3" "a.b" (by decide)

/-- Claim C10: with the gallery service reporting disabled, the constructor
returns at once: nothing is hydrated from storage, no index is built, no
subscription is registered, the workspace check never runs, no notification
is emitted, and getRecommendations returns the empty list. -/
theorem C10_gallery_disabled_noop
    (extensionTips extensionImportantTips : Option (List (String × String)))
    (ignoreStr recsStr : String) (wsDismissed : Bool) (wsRecs : List String)
    (installed : Except Unit (List LocalExtension)) :
    constructService false extensionTips extensionImportantTips ignoreStr recsStr
        wsDismissed wsRecs installed =
      Except.ok { tipsState := none, subscribed := false,
                  workspaceNotification := none, workspaceRan := false } ∧
    serviceGetRecommendations
      { tipsState := none, subscribed := false,
        workspaceNotification := none, workspaceRan := false } = [] :=
  ⟨rfl, rfl⟩
